import Mathlib

/-!
Verification of the notebook `rnns/1 RNN architecture overview.ipynb` from
the repository `thinking-in-tensors-writing-in-pytorch`.

The notebook contains no original functions or classes: its code cells are a
shell command, three import statements, four `Sequential` model constructions
that are passed to `sequential_model_to_ascii_printout`, and one `Sequential`
model construction (the Bidirectional variant) whose printer call is
commented out.  We embed the notebook syntactically: each code cell is a list
of statements, each layer-constructor call records its positional and keyword
arguments as written, and each recorded cell output (the ASCII tables stored
in the notebook file) is transcribed as structured data.  Percentages in the
tables are stored as tenths of a percent (92.0% becomes 920).
-/

/-- The layer classes that the notebook actually constructs. -/
inductive Kind
  | simpleRNN
  | lstm
  | gru
  | dense
deriving DecidableEq, Repr

/-- An argument value as written in a layer-constructor call:
a number (unit count), a boolean (`return_sequences`), a shape tuple
(`input_shape=(r, c)`), or a string (`activation`). -/
inductive Arg
  | natA (n : Nat)
  | boolA (b : Bool)
  | shapeA (r c : Nat)
  | strA (s : String)
deriving DecidableEq, Repr

/-- A direct layer-constructor call: kind, positional arguments,
keyword arguments in source order. -/
inductive BaseCall
  | mk (kind : Kind) (positional : List Arg) (kwargs : List (String × Arg))
deriving DecidableEq, Repr

/-- A layer expression in a `Sequential([...])` list: either a direct
constructor call or a `Bidirectional(...)` wrapper around one. -/
inductive LayerCall
  | base (b : BaseCall)
  | bidirectional (inner : BaseCall)
deriving DecidableEq, Repr

/-- A statement of a notebook code cell.  The constructor set covers both
what the notebook contains and the kinds of statement the claims assert are
absent (function/class definitions, exception handling, thread/process
creation, file writes, network connections). -/
inductive Stmt
  | shellCmd (cmd : String)
  | pyImport (module : String) (names : List String)
  | assignSequential (name : String) (layers : List LayerCall)
  | callExpr (fn : String) (arg : String)
  | commentLine (text : String)
  | defFun (name : String)
  | defClass (name : String) (base : String)
  | tryExcept
  | raiseExc (name : String)
  | spawnThread
  | spawnProcess
  | fileWrite (path : String)
  | openNetwork (addr : String)
deriving DecidableEq, Repr

/-- One row of a printed ASCII table: operation name, the data-dimension
numbers shown on the row, and (on weight-bearing rows) the weight count and
the weight percentage in tenths of a percent. -/
structure Row where
  operation : String
  dims : List Nat
  weightsN : Option Nat
  weightsPct10 : Option Nat
deriving DecidableEq, Repr

/-- A printed ASCII table: the header column titles and the rows. -/
structure Table where
  header : List String
  rows : List Row
deriving DecidableEq, Repr

/-- A code cell: its index in the notebook, its statements, its recorded
table output (if any) and its recorded plain-text output lines (if any). -/
structure CodeCell where
  cellId : Nat
  stmts : List Stmt
  outTable : Option Table
  outText : List String
deriving DecidableEq, Repr

/- Layer calls as written in the notebook. -/

/-- `SimpleRNN(32, return_sequences=False, input_shape=(10, 26))` (cell 5). -/
def simpleRNN_c5 : LayerCall :=
  .base (.mk .simpleRNN [Arg.natA 32]
    [(("return_sequences"), Arg.boolA false), (("input_shape"), Arg.shapeA 10 26)])

/-- `Dense(5, activation='softmax')` (cells 5, 7, 8, 9, 11). -/
def dense_softmax : LayerCall :=
  .base (.mk .dense [Arg.natA 5] [(("activation"), Arg.strA ("softmax"))])

/-- `LSTM(32, input_shape=(10, 26))` (cell 7). -/
def lstm_c7 : LayerCall :=
  .base (.mk .lstm [Arg.natA 32] [(("input_shape"), Arg.shapeA 10 26)])

/-- `LSTM(32, input_shape=(10, 26), return_sequences=True)` (cells 8 and 9). -/
def lstm_retseq : LayerCall :=
  .base (.mk .lstm [Arg.natA 32]
    [(("input_shape"), Arg.shapeA 10 26), (("return_sequences"), Arg.boolA true)])

/-- `LSTM(32)` (cells 8 and 9). -/
def lstm_plain : LayerCall :=
  .base (.mk .lstm [Arg.natA 32] [])

/-- `Bidirectional(LSTM(32, input_shape=(10, 26), return_sequences=True))` (cell 8). -/
def bidi_lstm_retseq : LayerCall :=
  .bidirectional (.mk .lstm [Arg.natA 32]
    [(("input_shape"), Arg.shapeA 10 26), (("return_sequences"), Arg.boolA true)])

/-- `Bidirectional(LSTM(32))` (cell 8). -/
def bidi_lstm_plain : LayerCall :=
  .bidirectional (.mk .lstm [Arg.natA 32] [])

/-- `GRU(32, input_shape=(10, 26), return_sequences=True)` (cell 11). -/
def gru_retseq : LayerCall :=
  .base (.mk .gru [Arg.natA 32]
    [(("input_shape"), Arg.shapeA 10 26), (("return_sequences"), Arg.boolA true)])

/-- `GRU(32)` (cell 11). -/
def gru_plain : LayerCall :=
  .base (.mk .gru [Arg.natA 32] [])

/- The constructed models (the layer lists passed to `Sequential`). -/

/-- Model of cell 5: SimpleRNN then Dense. -/
def model_c5 : List LayerCall := [simpleRNN_c5, dense_softmax]

/-- Model of cell 7: LSTM then Dense. -/
def model_c7 : List LayerCall := [lstm_c7, dense_softmax]

/-- Model of cell 8: two Bidirectional LSTM layers then Dense. -/
def model_c8 : List LayerCall := [bidi_lstm_retseq, bidi_lstm_plain, dense_softmax]

/-- Model of cell 9: two LSTM layers then Dense. -/
def model_c9 : List LayerCall := [lstm_retseq, lstm_plain, dense_softmax]

/-- Model of cell 11: two GRU layers then Dense. -/
def model_c11 : List LayerCall := [gru_retseq, gru_plain, dense_softmax]

/- The recorded table outputs, transcribed from the notebook file. -/

/-- The header column titles common to every printed table. -/
def tableHeader : List String :=
  [("OPERATION"), ("DATA DIMENSIONS"), ("WEIGHTS(N)"), ("WEIGHTS(%)")]

/-- Recorded output of cell 5. -/
def table_c5 : Table :=
  ⟨tableHeader,
   [⟨("Input"), [10, 26], none, none⟩,
    ⟨("SimpleRNN"), [], some 1888, some 920⟩,
    ⟨("tanh"), [32], none, none⟩,
    ⟨("Dense"), [], some 165, some 80⟩,
    ⟨("softmax"), [5], none, none⟩]⟩

/-- Recorded output of cell 7. -/
def table_c7 : Table :=
  ⟨tableHeader,
   [⟨("Input"), [10, 26], none, none⟩,
    ⟨("LSTM"), [], some 7552, some 979⟩,
    ⟨("tanh"), [32], none, none⟩,
    ⟨("Dense"), [], some 165, some 21⟩,
    ⟨("softmax"), [5], none, none⟩]⟩

/-- Recorded output of cell 9. -/
def table_c9 : Table :=
  ⟨tableHeader,
   [⟨("Input"), [10, 26], none, none⟩,
    ⟨("LSTM"), [], some 7552, some 471⟩,
    ⟨("tanh"), [10, 32], none, none⟩,
    ⟨("LSTM"), [], some 8320, some 519⟩,
    ⟨("tanh"), [32], none, none⟩,
    ⟨("Dense"), [], some 165, some 10⟩,
    ⟨("softmax"), [5], none, none⟩]⟩

/-- Recorded output of cell 11. -/
def table_c11 : Table :=
  ⟨tableHeader,
   [⟨("Input"), [10, 26], none, none⟩,
    ⟨("GRU"), [], some 5664, some 469⟩,
    ⟨("tanh"), [10, 32], none, none⟩,
    ⟨("GRU"), [], some 6240, some 517⟩,
    ⟨("tanh"), [32], none, none⟩,
    ⟨("Dense"), [], some 165, some 14⟩,
    ⟨("softmax"), [5], none, none⟩]⟩

/-- The name of the external printer function. -/
def printerName : String := ("sequential_model_to_ascii_printout")

/- The code cells of the notebook, in order. -/

/-- Cell 2: `!pip install -q keras_sequential_ascii`, with the pip
upgrade notice as recorded output (quote characters omitted). -/
def cell2 : CodeCell :=
  ⟨2,
   [.shellCmd ("pip install -q keras_sequential_ascii"),
    .commentLine ("if you need to install that")],
   none,
   [("You are using pip version 19.0.3, however version 19.1.1 is available."),
    ("You should consider upgrading via the pip install --upgrade pip command.")]⟩

/-- Cell 3: the three import statements, with the TensorFlow-backend
notice as recorded output. -/
def cell3 : CodeCell :=
  ⟨3,
   [.pyImport ("keras.models") [("Sequential")],
    .pyImport ("keras.layers")
      [("Flatten"), ("SimpleRNN"), ("Dense"), ("Dropout"),
       ("LSTM"), ("GRU"), ("Bidirectional")],
    .pyImport ("keras_sequential_ascii") [printerName]],
   none,
   [("Using TensorFlow backend.")]⟩

/-- Cell 5: SimpleRNN model construction and printer call. -/
def cell5 : CodeCell :=
  ⟨5,
   [.assignSequential ("model") model_c5,
    .callExpr printerName ("model")],
   some table_c5,
   []⟩

/-- Cell 7: single-LSTM model construction and printer call. -/
def cell7 : CodeCell :=
  ⟨7,
   [.assignSequential ("model") model_c7,
    .callExpr printerName ("model")],
   some table_c7,
   []⟩

/-- Cell 8: Bidirectional model construction; the printer call is a
comment, and the cell records no output. -/
def cell8 : CodeCell :=
  ⟨8,
   [.assignSequential ("model") model_c8,
    .commentLine ("sequential_model_to_ascii_printout(model)")],
   none,
   []⟩

/-- Cell 9: stacked-LSTM model construction and printer call. -/
def cell9 : CodeCell :=
  ⟨9,
   [.assignSequential ("model") model_c9,
    .callExpr printerName ("model")],
   some table_c9,
   []⟩

/-- Cell 11: stacked-GRU model construction and printer call. -/
def cell11 : CodeCell :=
  ⟨11,
   [.commentLine ("GRU is a drop-on replacement"),
    .assignSequential ("model") model_c11,
    .callExpr printerName ("model")],
   some table_c11,
   []⟩

/-- The code cells of the notebook, in execution order. -/
def notebookCells : List CodeCell := [cell2, cell3, cell5, cell7, cell8, cell9, cell11]

/-- All statements of the notebook, in order. -/
def notebookStmts : List Stmt := (notebookCells.map CodeCell.stmts).flatten

/-- The printer calls the notebook makes, each paired with the recorded
table it printed. -/
def printerCalls : List (List LayerCall × Table) :=
  [(model_c5, table_c5), (model_c7, table_c7), (model_c9, table_c9), (model_c11, table_c11)]

/-- All models constructed in the notebook, in order. -/
def constructedModels : List (List LayerCall) :=
  [model_c5, model_c7, model_c8, model_c9, model_c11]

/- Predicates and derived functions. -/

/-- The operation name the printer shows for a layer. -/
def opName : LayerCall → String
  | .base (.mk .simpleRNN _ _) => ("SimpleRNN")
  | .base (.mk .lstm _ _) => ("LSTM")
  | .base (.mk .gru _ _) => ("GRU")
  | .base (.mk .dense _ _) => ("Dense")
  | .bidirectional _ => ("Bidirectional")

/-- The activation name the printer shows for a layer: the `activation`
keyword for a Dense layer, the default `tanh` for the recurrent layers. -/
def activationOf : LayerCall → String
  | .base (.mk .dense _ kwargs) =>
      match kwargs.lookup ("activation") with
      | some (Arg.strA s) => s
      | _ => ("tanh")
  | _ => ("tanh")

/-- The operation rows the printer emits for a model: an `Input` row,
then for each layer its operation row and its activation row. -/
def modelOps (layers : List LayerCall) : List String :=
  ("Input") :: (layers.map (fun l => [opName l, activationOf l])).flatten

/-- Whether a layer call is a recurrent layer (counting a `Bidirectional`
wrapper around a recurrent layer as recurrent). -/
def isRecurrentCall : LayerCall → Bool
  | .base (.mk .simpleRNN _ _) => true
  | .base (.mk .lstm _ _) => true
  | .base (.mk .gru _ _) => true
  | .base (.mk .dense _ _) => false
  | .bidirectional (.mk k _ _) =>
      match k with
      | .simpleRNN => true
      | .lstm => true
      | .gru => true
      | .dense => false

/-- Whether a layer call is a `Dense` layer carrying an `activation`
keyword argument. -/
def isDenseWithActivation : LayerCall → Bool
  | .base (.mk .dense _ kwargs) => kwargs.any (fun p => p.1 == ("activation"))
  | _ => false

/-- Whether a layer list is one or more recurrent layers followed by a
Dense layer with an activation. -/
def isRecStack (layers : List LayerCall) : Bool :=
  decide (layers.dropLast ≠ []) && layers.dropLast.all isRecurrentCall &&
  (match layers.getLast? with
   | some l => isDenseWithActivation l
   | none => false)

/-- The keyword-argument names a direct layer call uses. -/
def kwNames : BaseCall → List String
  | .mk _ _ kwargs => kwargs.map Prod.fst

/-- The keyword names the spec allows on a non-Dense layer descriptor. -/
def allowedRecKw : List String := [("return_sequences"), ("input_shape")]

/-- Whether a direct layer call is configured using only the allowed
attributes: a single positional unit count, and keywords among
`return_sequences` and `input_shape`, plus `activation` on Dense only. -/
def baseUsesAllowedAttrs : BaseCall → Bool
  | .mk k positional kwargs =>
      (match positional with
       | [Arg.natA _] => true
       | _ => false) &&
      (match k with
       | .dense => (kwargs.map Prod.fst).all
           (fun s => s == ("activation") || allowedRecKw.contains s)
       | _ => (kwargs.map Prod.fst).all (fun s => allowedRecKw.contains s))

/-- Whether a layer expression is configured using only the allowed
attributes (for a `Bidirectional` wrapper: the wrapped call is). -/
def usesAllowedAttrs : LayerCall → Bool
  | .base b => baseUsesAllowedAttrs b
  | .bidirectional b => baseUsesAllowedAttrs b

/-- Whether a statement is a function or class definition. -/
def isOriginalDef : Stmt → Bool
  | .defFun _ => true
  | .defClass _ _ => true
  | _ => false

/-- Whether a statement defines, raises or catches an exception. -/
def isErrorHandling : Stmt → Bool
  | .defClass _ _ => true
  | .tryExcept => true
  | .raiseExc _ => true
  | _ => false

/-- Whether a statement writes a file or opens a network connection. -/
def isPersistOrNetwork : Stmt → Bool
  | .fileWrite _ => true
  | .openNetwork _ => true
  | _ => false

/-- Whether a statement spawns a thread or a process. -/
def isConcurrencyStmt : Stmt → Bool
  | .spawnThread => true
  | .spawnProcess => true
  | _ => false

/-- Whether a statement is a call of the external printer. -/
def isPrinterCall : Stmt → Bool
  | .callExpr fn _ => fn == printerName
  | _ => false

/-- Whether a statement constructs a `Sequential` model. -/
def isModelConstruction : Stmt → Bool
  | .assignSequential _ _ => true
  | _ => false

/-- Whether a statement belongs to the kinds the spec describes: shell
command, import, model construction, printer call, or comment. -/
def isDescribedKind : Stmt → Bool
  | .shellCmd _ => true
  | .pyImport _ _ => true
  | .assignSequential _ _ => true
  | .callExpr fn _ => fn == printerName
  | .commentLine _ => true
  | _ => false

/-- Whether a statement is a shell command. -/
def isShellCmd : Stmt → Bool
  | .shellCmd _ => true
  | _ => false

/-- Whether a statement, if it is an assignment, binds the name `model`. -/
def assignsOnlyModel : Stmt → Bool
  | .assignSequential n _ => n == ("model")
  | _ => true

/-- Whether a layer expression is a `Bidirectional` wrapper. -/
def isBidirectional : LayerCall → Bool
  | .bidirectional _ => true
  | .base _ => false

/-- The models actually passed to the printer, obtained by replaying the
kernel cell by cell: an assignment rebinds `model`, and a printer call on
`model` records the currently bound layer list. -/
def printedModels : List (List LayerCall) :=
  (notebookStmts.foldl
    (fun (acc : List (List LayerCall) × List LayerCall) s =>
      match s with
      | .assignSequential _ ls => (acc.1, ls)
      | .callExpr fn arg =>
          if fn == printerName && arg == ("model") then (acc.1 ++ [acc.2], acc.2) else acc
      | _ => acc)
    ([], [])).1

/-- The weight count shown on row `i` of a table, if that row bears one. -/
def weightAt (t : Table) (i : Nat) : Option Nat :=
  match t.rows[i]? with
  | some r => r.weightsN
  | none => none

/-- Parameter count of a SimpleRNN layer with `u` units on `d` input
features: `u * (d + u + 1)`. -/
def simpleRNNParams (u d : Nat) : Nat := u * (d + u + 1)

/-- Parameter count of an LSTM layer with `u` units on `d` input
features: `4 * u * (d + u + 1)`. -/
def lstmParams (u d : Nat) : Nat := 4 * u * (d + u + 1)

/-- Parameter count of a GRU layer (without `reset_after` bias) with `u`
units on `d` input features: `3 * u * (d + u + 1)`. -/
def gruParams (u d : Nat) : Nat := 3 * u * (d + u + 1)

/-- Parameter count of a Dense layer with `o` output units on `i` input
features: `o * (i + 1)`. -/
def denseParams (o i : Nat) : Nat := o * (i + 1)

/-- Replace the LSTM kind by the GRU kind in a layer call, keeping every
argument unchanged. -/
def lstmToGru : LayerCall → LayerCall
  | .base (.mk .lstm positional kwargs) => .base (.mk .gru positional kwargs)
  | .bidirectional (.mk .lstm positional kwargs) => .bidirectional (.mk .gru positional kwargs)
  | l => l

/- Claim theorems. -/

/-- C1: for every model the notebook passes to the visualization routine,
the recorded printed result is a table whose header columns are OPERATION,
DATA DIMENSIONS, WEIGHTS(N) and WEIGHTS(%), with one row per operation of
the model (an Input row, then one operation row and one activation row per
layer, in order and with the layers' names). -/
theorem printer_output_is_operation_table :
    printerCalls.all
      (fun p => p.2.header == tableHeader && p.2.rows.map Row.operation == modelOps p.1)
      = true := by decide

/-- C2: every statement of the notebook is a shell command, an import, a
`Sequential` model construction from pre-built layer objects, a call of the
external printer, or a comment; the notebook defines no function or class of
its own, and it does import the sequential-model constructor, the layer
classes, and the printing utility from the external package. -/
theorem notebook_has_no_original_code :
    (notebookStmts.all (fun s => isDescribedKind s && !(isOriginalDef s)) = true) ∧
    (cell3.stmts.contains (Stmt.pyImport ("keras.models") [("Sequential")]) = true) ∧
    (cell3.stmts.contains (Stmt.pyImport ("keras_sequential_ascii") [printerName]) = true) :=
  ⟨by decide, by decide, by decide⟩

/-- C3 counterexample: the Bidirectional model of cell 8 is constructed in
the notebook but is never given to `sequential_model_to_ascii_printout`:
replaying the kernel shows it is not among the printed models, so not every
constructed model is subsequently passed to the printer. -/
theorem bidirectional_model_never_printed :
    (constructedModels.contains model_c8 = true) ∧
    (printedModels.contains model_c8 = false) :=
  ⟨by decide, by decide⟩

/-- C3 amended: every model constructed in the notebook has as its layers
one or more recurrent layers followed by a Dense layer with an activation,
and every constructed model except the Bidirectional model of cell 8 (whose
printer call is commented out) is subsequently given to
`sequential_model_to_ascii_printout`. -/
theorem models_are_recurrent_stacks_and_printed_except_cell8 :
    (constructedModels.all isRecStack = true) ∧
    (printedModels = [model_c5, model_c7, model_c9, model_c11]) ∧
    (constructedModels = [model_c5, model_c7, model_c8, model_c9, model_c11]) ∧
    (cell8.stmts.contains
      (Stmt.commentLine ("sequential_model_to_ascii_printout(model)")) = true) :=
  ⟨by decide, by decide, by decide, by decide⟩

/-- C4: every layer descriptor constructed in the notebook (including the
layers wrapped in `Bidirectional`) is configured using only a positional
unit count and the keywords `return_sequences` and `input_shape`, plus
`activation` on Dense layers only; and every descriptor appears directly
inside a `Sequential` construction statement. -/
theorem layer_descriptors_use_only_allowed_attrs :
    (constructedModels.flatten.all usesAllowedAttrs = true) ∧
    (notebookStmts.all
      (fun s => match s with
       | Stmt.assignSequential _ ls => constructedModels.contains ls
       | _ => true) = true) :=
  ⟨by decide, by decide⟩

/-- C5: no statement of any notebook cell defines an exception class,
raises an exception, or catches one with try/except. -/
theorem notebook_defines_no_error_handling :
    notebookStmts.all (fun s => !(isErrorHandling s)) = true := by decide

/-- C6: no statement of the notebook writes a file or opens a network
connection of its own, and the only shell command — the sole statement that
mutates the Python environment — is the pip install of the visualization
package. -/
theorem notebook_has_no_persistence :
    (notebookStmts.all (fun s => !(isPersistOrNetwork s)) = true) ∧
    (notebookStmts.filter isShellCmd
      = [Stmt.shellCmd ("pip install -q keras_sequential_ascii")]) :=
  ⟨by decide, by decide⟩

/-- C7: no statement of the notebook spawns a thread or a process, and the
only mutable kernel state is the rebinding of the single name `model` from
cell to cell. -/
theorem notebook_is_sequential :
    (notebookStmts.all (fun s => !(isConcurrencyStmt s)) = true) ∧
    (notebookStmts.all assignsOnlyModel = true) :=
  ⟨by decide, by decide⟩

/-- C8: the recorded weight counts equal the standard parameter formulas as
exact integer arithmetic: SimpleRNN(32) on 26 features prints
32*(26+32+1) = 1888, LSTM(32) on 26 features prints 4*32*(26+32+1) = 7552,
LSTM(32) on 32 features prints 4*32*(32+32+1) = 8320, and Dense(5) on 32
features prints 5*(32+1) = 165. -/
theorem weight_counts_satisfy_formulas :
    (simpleRNNParams 32 26 = 1888 ∧ weightAt table_c5 1 = some (simpleRNNParams 32 26)) ∧
    (lstmParams 32 26 = 7552 ∧ weightAt table_c7 1 = some (lstmParams 32 26)) ∧
    (lstmParams 32 32 = 8320 ∧ weightAt table_c9 3 = some (lstmParams 32 32)) ∧
    (denseParams 5 32 = 165 ∧ weightAt table_c5 3 = some (denseParams 5 32)) := by
  decide

/-- C9: the GRU model of cell 11 is the LSTM model of cell 9 with the layer
kind replaced and every argument kept; its recorded table shows exactly the
same sequence of data dimensions; and each GRU weight count is exactly 3/4
of the corresponding LSTM weight count (4*5664 = 3*7552 and
4*6240 = 3*8320). -/
theorem gru_is_drop_in_replacement :
    (model_c11 = model_c9.map lstmToGru) ∧
    (table_c11.rows.map Row.dims = table_c9.rows.map Row.dims) ∧
    (weightAt table_c11 1 = some 5664 ∧ weightAt table_c9 1 = some 7552 ∧
      4 * 5664 = 3 * 7552) ∧
    (weightAt table_c11 3 = some 6240 ∧ weightAt table_c9 3 = some 8320 ∧
      4 * 6240 = 3 * 8320) := by
  decide

/-- C10: cell 8 constructs a model whose recurrent layers are Bidirectional
wrappers, contains no call of the printer — only a comment holding the
commented-out call — and records no output at all, neither a table nor
text. -/
theorem bidirectional_variant_not_visualized :
    (cell8.stmts.any isModelConstruction = true) ∧
    (model_c8.dropLast.all isBidirectional = true) ∧
    (cell8.stmts.any isPrinterCall = false) ∧
    (cell8.stmts.any
      (fun s => match s with
       | Stmt.commentLine t => t == ("sequential_model_to_ascii_printout(model)")
       | _ => false) = true) ∧
    (cell8.outTable = none) ∧
    (cell8.outText = []) :=
  ⟨by decide, by decide, by decide, by decide, by decide, by decide⟩
